import Mathlib

/-!
Verification development for the request-authorization middleware
(`withWorkspace`, src/unnamed/part_000) and the primary-domain endpoint
(src/apps/web/app/api/domains/[domain]/primary/route.ts) of the dub
repository excerpt.

The TypeScript code is shallowly embedded as executable Lean functions.
External collaborators excluded by the specification (the ORM client, the
rate-limit service, session management, the role-to-scopes table, the dub
domain list, the dub workspace id) are modelled as fields of an explicit
environment value `Env` that is an input of the pipeline.  JavaScript
string truthiness (undefined and the empty string are falsy) is modelled
with `Option String` and the `truthy` predicate.
-/

/-! ## String helpers mirroring the JavaScript string operations used -/

/-- Character-list prefix test: `hasPrefixCh needle hay` is true when
`needle` is a prefix of `hay`. -/
def hasPrefixCh : List Char → List Char → Bool
  | [], _ => true
  | _ :: _, [] => false
  | a :: as, b :: bs => a == b && hasPrefixCh as bs

/-- Substring test on character lists, mirroring JavaScript
`String.prototype.includes`. -/
def containsCh (needle : List Char) : List Char → Bool
  | [] => hasPrefixCh needle []
  | h :: t => hasPrefixCh needle (h :: t) || containsCh needle t

/-- Removal of the first occurrence of `needle`, mirroring JavaScript
`String.prototype.replace(needle, "")` with a string pattern, which
replaces only the first occurrence and returns the input unchanged when
the pattern does not occur. -/
def dropFirstOcc (needle : List Char) : List Char → List Char
  | [] => []
  | h :: t =>
    if hasPrefixCh needle (h :: t) then (h :: t).drop needle.length
    else h :: dropFirstOcc needle t

/-- JavaScript `s.includes(pat)`. -/
def strContains (s pat : String) : Bool := containsCh pat.data s.data

/-- JavaScript `s.replace(pat, "")` for a string pattern. -/
def strReplaceFirst (s pat : String) : String := ⟨dropFirstOcc pat.data s.data⟩

/-- JavaScript `s.startsWith(pre)`. -/
def strStartsWith (s pre : String) : Bool := hasPrefixCh pre.data s.data

/-- Accumulator-based splitting of a character list on the space
character. -/
def splitOnSpaceAux : List Char → List Char → List String
  | acc, [] => [⟨acc.reverse⟩]
  | acc, c :: t =>
    if c == ' ' then ⟨acc.reverse⟩ :: splitOnSpaceAux [] t
    else splitOnSpaceAux (c :: acc) t

/-- JavaScript `s.split(" ")`: the empty string yields `[""]` and
consecutive spaces yield empty fragments, as in JavaScript. -/
def splitScopes (s : String) : List String := splitOnSpaceAux [] s.data

/-- JavaScript truthiness of an optional string: `undefined` and the
empty string are falsy. -/
def truthy : Option String → Bool
  | none => false
  | some s => !(s == "")

/-- JavaScript `a || b` on optional strings. -/
def jsOr (a b : Option String) : Option String := if truthy a then a else b

/-! ## Data model: database records and request environment -/

/-- User fields selected from a token row
(src/unnamed/part_000 lines 163-170): `name` and `email` are nullable in
the schema. -/
structure TokenUser where
  id : String
  name : Option String
  email : Option String
  isMachine : Bool
deriving DecidableEq, Repr

/-- Restricted-token row fields selected at
src/unnamed/part_000 lines 153-172 for a `dub_`-prefixed API key. -/
structure RestrictedTokenRec where
  scopes : Option String
  rateLimit : Option Int
  projectId : String
  user : Option TokenUser
deriving DecidableEq, Repr

/-- Plain token row fields selected for a non-restricted API key. -/
structure TokenRec where
  user : Option TokenUser
deriving DecidableEq, Repr

/-- Unified view of the `token` local of `withWorkspace`: a plain token
carries no `scopes`, `rateLimit` or `projectId` selection. -/
structure TokenData where
  scopes : Option String
  rateLimit : Option Int
  projectId : Option String
  user : Option TokenUser
deriving DecidableEq, Repr

/-- Session user as handed to the route handler: the token path fills
`name` and `email` with the empty string when absent
(src/unnamed/part_000 lines 233-240). -/
structure SessionUser where
  id : String
  name : String
  email : String
  isMachine : Bool
deriving DecidableEq, Repr

/-- Browser session as returned by `getSession` (external): the session
or its user may be absent. -/
structure BSession where
  user : Option SessionUser
deriving DecidableEq, Repr

/-- Rate-limit response headers set at src/unnamed/part_000
lines 194-199. -/
structure RLHeaders where
  limit : Int
  remaining : Int
  reset : Int
deriving DecidableEq, Repr

/-- Domain row with the fields used by the middleware fetch
(src/unnamed/part_000 lines 267-273) and by the primary-domain
endpoint. -/
structure DomainRec where
  id : String
  slug : String
  projectId : String
  primary : Bool
deriving DecidableEq, Repr

/-- Project (workspace) row with the fields the middleware reads.
`members` models the `users` relation as pairs of user id and role. -/
structure ProjectRec where
  id : String
  slug : String
  members : List (String × String)
  plan : String
  usage : Int
  usageLimit : Int
  linksUsage : Int
  linksLimit : Int
deriving DecidableEq, Repr

/-- Link row with the fields used by the link lookups
(src/unnamed/part_000 lines 276-298 and 338-347). -/
structure LinkRec where
  id : String
  externalId : Option String
  projectId : Option String
  domain : String
  key : String
deriving DecidableEq, Repr

/-- WorkspaceProps as fetched at src/unnamed/part_000 lines 252-275:
`users` is the list of roles of the rows of the `users` relation filtered
to the caller, `domains` is every domain row of the project. -/
structure WorkspaceView where
  id : String
  slug : String
  users : List String
  domains : List DomainRec
  plan : String
  usage : Int
  usageLimit : Int
  linksUsage : Int
  linksLimit : Int
deriving DecidableEq, Repr

/-- Request environment: the request data together with the state of the
external collaborators (database tables, rate limiter, session store,
role table, dub constants).  Token tables are keyed directly by the API
key; the source keys them by `hashToken(apiKey)`, and `hashToken` is an
external injective hash, so the composition of hashing and lookup is
modelled as one lookup. -/
structure Env where
  authHeader : Option String
  pDomain : Option String
  sDomain : Option String
  sKey : Option String
  pLinkId : Option String
  sLinkId : Option String
  sExternalId : Option String
  pIdOrSlug : Option String
  sWorkspaceId : Option String
  pSlug : Option String
  sProjectSlug : Option String
  urlPathname : String
  session : Option BSession
  restrictedTokens : List (String × RestrictedTokenRec)
  tokens : List (String × TokenRec)
  rlSuccess : Bool
  rlLimit : Int
  rlRemaining : Int
  rlReset : Int
  projects : List ProjectRec
  domains : List DomainRec
  links : List LinkRec
  invites : List (String × String × Int)
  now : Int
  betaTesters : List String
  dubDomains : List String
  dubWorkspaceId : String
  roleScopes : String → List String

/-- Route options of `withWorkspace`
(src/unnamed/part_000 lines 49-77) with the source defaults. -/
structure RouteOpts where
  requiredPlan : List String :=
    ["free", "pro", "business", "business plus", "business max",
     "business extra", "enterprise"]
  needNotExceededClicks : Bool := false
  needNotExceededLinks : Bool := false
  allowAnonymous : Bool := false
  skipLinkChecks : Bool := false
  domainChecks : Bool := false
  betaFeature : Bool := false
  requiredScopes : List String := []
  skipScopeChecks : Bool := false
deriving DecidableEq, Repr

/-- Error codes of the `DubApiError` values thrown by the middleware. -/
inductive ErrCode
  | badRequest
  | notFound
  | unauthorized
  | forbidden
  | rateLimitExceeded
  | inviteExpired
  | invitePending
  | internalError
deriving DecidableEq, Repr

/-- External database and service interactions performed by a middleware
run, recorded as a trace. -/
inductive Eff
  | tokenQuery
  | rateLimitCall
  | sessionRead
  | workspaceQuery
  | linkQuery
  | betaQuery
  | linkRefetch
  | inviteQuery
deriving DecidableEq, Repr

/-- Context handed to the route handler on the full path
(src/unnamed/part_000 lines 459-469). -/
structure HandlerCtx where
  headers : Option RLHeaders
  session : SessionUser
  workspace : WorkspaceView
  domain : Option String
  link : Option LinkRec
  scopes : List String
deriving DecidableEq, Repr

/-- Outcome of a middleware run: an error response, an anonymous handler
invocation carrying only the rate-limit headers besides the raw request
data (src/unnamed/part_000 lines 126-133), or a full handler
invocation. -/
inductive MWResult
  | error (code : ErrCode) (msg : String)
  | anonymous (headers : Option RLHeaders)
  | handled (ctx : HandlerCtx)
deriving DecidableEq, Repr

/-! ## Request-derived values (src/unnamed/part_000 lines 88-120) -/

/-- Domain parameter: `params.domain || searchParams.domain`
(line 101). -/
def reqDomain (env : Env) : Option String := jsOr env.pDomain env.sDomain

/-- Link id: `params.linkId || searchParams.linkId ||
searchParams.externalId || undefined` (lines 103-107). -/
def reqLinkId (env : Env) : Option String :=
  let v := jsOr (jsOr env.pLinkId env.sLinkId) env.sExternalId
  if truthy v then v else none

/-- Workspace id or slug: `params.idOrSlug || searchParams.workspaceId ||
params.slug || searchParams.projectSlug` (lines 116-120). -/
def idOrSlugOf (env : Env) : Option String :=
  jsOr (jsOr (jsOr env.pIdOrSlug env.sWorkspaceId) env.pSlug) env.sProjectSlug

/-- API key extracted from the Authorization header (lines 89-99): when
the header is present and contains `Bearer`, the key is the header with
the first occurrence of the Bearer marker removed; a header without the
marker is the bad-request error case and yields no key here. -/
def apiKeyOf (env : Env) : Option String :=
  match env.authHeader with
  | none => none
  | some h =>
    if strContains h "Bearer " then some (strReplaceFirst h "Bearer ")
    else none

/-- Token lookup of lines 151-178: a `dub_`-prefixed key is looked up in
the restricted-token table, any other key in the plain token table. -/
def lookupTokenData (env : Env) (k : String) : Option TokenData :=
  if strStartsWith k "dub_" then
    (env.restrictedTokens.find? (fun p => p.1 == k)).map (fun p =>
      { scopes := p.2.scopes, rateLimit := p.2.rateLimit,
        projectId := some p.2.projectId, user := p.2.user })
  else
    (env.tokens.find? (fun p => p.1 == k)).map (fun p =>
      { scopes := none, rateLimit := none, projectId := none,
        user := p.2.user })

/-- Browser session resolution of lines 242-250: the user is available
exactly when the session exists, has a user, and that user has a
non-empty (truthy) id. -/
def sessionOk (env : Env) : Option SessionUser :=
  match env.session with
  | none => none
  | some bs =>
    match bs.user with
    | none => none
    | some u => if u.id == "" then none else some u

/-! ## Stage 1: authentication (src/unnamed/part_000 lines 88-250) -/

/-- Values resolved by the authentication stage and used by the rest of
the pipeline. -/
structure AuthOut where
  apiKey : Option String
  isRestricted : Bool
  tokenScopes : Option String
  headers : Option RLHeaders
  session : SessionUser
  workspaceId : Option String
  workspaceSlug : Option String
  domain : Option String
  key : Option String
  linkId : Option String
deriving DecidableEq, Repr

/-- Browser-session branch of the authentication stage
(lines 241-250). -/
def authSessionBranch (env : Env) (base : AuthOut) :
    List Eff × (MWResult ⊕ AuthOut) :=
  ([Eff.sessionRead],
    match sessionOk env with
    | none => Sum.inl (MWResult.error .unauthorized "Unauthorized: Login required.")
    | some u => Sum.inr { base with session := u })

/-- API-key branch of the authentication stage (lines 151-240).  The
rate-limit service response comes from the environment; its numeric
argument `token.rateLimit || 600` does not change the modelled response.
The fire-and-forget `lastUsed` update (lines 213-231) touches no state
read by the pipeline and is not modelled. -/
def authTokenBranch (env : Env) (k : String) (isRestricted : Bool)
    (base : AuthOut) : List Eff × (MWResult ⊕ AuthOut) :=
  match lookupTokenData env k with
  | none =>
    ([Eff.tokenQuery], Sum.inl (MWResult.error .unauthorized "Unauthorized: Invalid API key."))
  | some t =>
    match t.user with
    | none =>
      ([Eff.tokenQuery], Sum.inl (MWResult.error .unauthorized "Unauthorized: Invalid API key."))
    | some u =>
      let headers : Option RLHeaders :=
        some { limit := env.rlLimit, remaining := env.rlRemaining,
               reset := env.rlReset }
      if !env.rlSuccess then
        ([Eff.tokenQuery, Eff.rateLimitCall],
          Sum.inl (MWResult.error .rateLimitExceeded "Too many requests."))
      else
        ([Eff.tokenQuery, Eff.rateLimitCall],
          Sum.inr { base with
            headers := headers,
            tokenScopes := t.scopes,
            workspaceId := if isRestricted then t.projectId else base.workspaceId,
            session :=
              { id := u.id, name := u.name.getD "", email := u.email.getD "",
                isMachine := u.isMachine } })

/-- Values of the `AuthOut` record that are fixed before the token or
session branch runs: request-derived values (lines 101-120) and the
workspace id or slug extraction of lines 143-149. -/
def authBase (env : Env) (apiKey : Option String) : AuthOut :=
  let isRestricted :=
    match apiKey with
    | some k => strStartsWith k "dub_"
    | none => false
  let idOrSlug := idOrSlugOf env
  let ids : Option String × Option String :=
    if truthy idOrSlug then
      match idOrSlug with
      | some s =>
        if strStartsWith s "ws_" then (some (strReplaceFirst s "ws_"), none)
        else (none, some s)
      | none => (none, none)
    else (none, none)
  { apiKey := apiKey, isRestricted := isRestricted, tokenScopes := none,
    headers := none,
    session := { id := "", name := "", email := "", isMachine := false },
    workspaceId := ids.1, workspaceSlug := ids.2,
    domain := reqDomain env, key := env.sKey, linkId := reqLinkId env }

/-- Authentication stage after Authorization-header validation, covering
src/unnamed/part_000 lines 101-250: request-derived values, the
anonymous early return, workspace id or slug extraction, and the token
or browser-session path. -/
def stageAuthRest (env : Env) (opts : RouteOpts) (apiKey : Option String) :
    List Eff × (MWResult ⊕ AuthOut) :=
  let isRestricted :=
    match apiKey with
    | some k => strStartsWith k "dub_"
    | none => false
  if !truthy (idOrSlugOf env) && !isRestricted then
    if opts.allowAnonymous && !truthy apiKey then
      ([], Sum.inl (MWResult.anonymous none))
    else
      ([], Sum.inl (MWResult.error .notFound "Workspace id not found."))
  else
    match apiKey with
    | some k =>
      if k == "" then authSessionBranch env (authBase env apiKey)
      else authTokenBranch env k isRestricted (authBase env apiKey)
    | none => authSessionBranch env (authBase env apiKey)

/-- Authentication stage, covering src/unnamed/part_000 lines 88-250:
Authorization-header validation followed by `stageAuthRest`.  The
source guards the whole header block with JavaScript truthiness
(`if (authorizationHeader)`, line 90), so an absent or empty header
skips validation entirely and the run continues with no API key. -/
def stageAuth (env : Env) (opts : RouteOpts) :
    List Eff × (MWResult ⊕ AuthOut) :=
  match env.authHeader with
  | some h =>
    if h == "" then stageAuthRest env opts none
    else if !strContains h "Bearer " then
      ([], Sum.inl (MWResult.error .badRequest "Misconfigured authorization header."))
    else stageAuthRest env opts (some (strReplaceFirst h "Bearer "))
  | none => stageAuthRest env opts none

/-! ## Stage 2: workspace fetch and scope resolution
(src/unnamed/part_000 lines 252-314) -/

/-- Project lookup of lines 253-257: `findUnique` with
`id: workspaceId || undefined, slug: workspaceSlug || undefined`.  A
lookup with neither field set is a client validation error in the ORM
and is modelled as no workspace found. -/
def findProject (projects : List ProjectRec) (wid wslug : Option String) :
    Option ProjectRec :=
  match wid, wslug with
  | none, none => none
  | _, _ =>
    projects.find? (fun p =>
      (match wid with
       | some i => p.id == i
       | none => true) &&
      (match wslug with
       | some s => p.slug == s
       | none => true))

/-- Link lookup of lines 276-298: by project and external id when the
link id has the `ext_` prefix and a workspace id is known, otherwise by
id, otherwise by domain and key when both are present. -/
def findLink (links : List LinkRec) (linkId : Option String)
    (wid : Option String) (domain key : Option String) : Option LinkRec :=
  match linkId with
  | some lid =>
    if strStartsWith lid "ext_" && truthy wid then
      links.find? (fun l =>
        l.projectId == wid && l.externalId == some (strReplaceFirst lid "ext_"))
    else
      links.find? (fun l => l.id == lid)
  | none =>
    if truthy domain && truthy key then
      links.find? (fun l => some l.domain == domain && some l.key == key)
    else none

/-- Scope resolution of lines 309-314: a token that was selected with a
`scopes` column (a restricted token) provides its space-separated scopes
string, split on spaces, with a null string giving no scopes; otherwise
the role of the first `users` row is mapped through the role-to-scopes
table. -/
def computeScopes (hasTokenScopes : Bool) (tokenScopes : Option String)
    (roleScopes : String → List String) (users : List String) : List String :=
  if hasTokenScopes then
    match tokenScopes with
    | some s => splitScopes s
    | none => []
  else
    match users with
    | r :: _ => roleScopes r
    | [] => []

/-- Workspace stage, covering lines 252-314: the parallel workspace and
link fetch, the not-found check on a missing workspace or an empty
filtered `users` relation, and scope resolution. -/
def stageWorkspace (env : Env) (a : AuthOut) :
    List Eff × (MWResult ⊕ (WorkspaceView × Option LinkRec × List String)) :=
  let wid := if truthy a.workspaceId then a.workspaceId else none
  let wslug := if truthy a.workspaceSlug then a.workspaceSlug else none
  let linkEff : List Eff :=
    match a.linkId with
    | some _ => [Eff.linkQuery]
    | none => if truthy a.domain && truthy a.key then [Eff.linkQuery] else []
  let effs := Eff.workspaceQuery :: linkEff
  match findProject env.projects wid wslug with
  | none => (effs, Sum.inl (MWResult.error .notFound "Workspace not found."))
  | some p =>
    let users := (p.members.filter (fun m => m.1 == a.session.id)).map (fun m => m.2)
    if users.isEmpty then
      (effs, Sum.inl (MWResult.error .notFound "Workspace not found."))
    else
      let ws : WorkspaceView :=
        { id := p.id, slug := p.slug, users := users,
          domains := env.domains.filter (fun d => d.projectId == p.id),
          plan := p.plan, usage := p.usage, usageLimit := p.usageLimit,
          linksUsage := p.linksUsage, linksLimit := p.linksLimit }
      let link0 := findLink env.links a.linkId a.workspaceId a.domain a.key
      let scopes :=
        computeScopes (truthy a.apiKey && a.isRestricted) a.tokenScopes
          env.roleScopes users
      (effs, Sum.inr (ws, link0, scopes))

/-! ## Stage 3: entitlement checks and handler invocation
(src/unnamed/part_000 lines 317-469) -/

/-- Modelled from the spec: `throwIfNoAccess` from
`../api/tokens/permissions` is imported but not part of the excerpt.
Per the specification a scope is a permission string gating an API
action, so access is granted exactly when every required scope is among
the caller resolved scopes. -/
def hasRequiredScopes (required scopes : List String) : Bool :=
  required.all (fun s => scopes.contains s)

/-- Condition of the external-id link re-fetch (line 338). -/
def refetchNeeded (a : AuthOut) (link0 : Option LinkRec) : Bool :=
  match a.linkId with
  | some lid => strStartsWith lid "ext_" && link0 == none && !truthy a.workspaceId
  | none => false

/-- Re-fetch of an external-id link when the first fetch could not use a
workspace id (lines 338-347). -/
def linkAfterRefetch (env : Env) (a : AuthOut) (ws : WorkspaceView)
    (link : Option LinkRec) : Option LinkRec :=
  match a.linkId with
  | some lid =>
    if strStartsWith lid "ext_" && link == none && !truthy a.workspaceId then
      env.links.find? (fun l =>
        l.projectId == some ws.id &&
          l.externalId == some (strReplaceFirst lid "ext_"))
    else link
  | none => link

/-- External interactions of the entitlement stage up to and including
the link re-fetch. -/
def entitleTrace (opts : RouteOpts) (a : AuthOut) (link0 : Option LinkRec) :
    List Eff :=
  (if opts.betaFeature then [Eff.betaQuery] else []) ++
    (if refetchNeeded a link0 then [Eff.linkRefetch] else [])

/-- Domain validation of lines 352-366 for a truthy domain parameter: a
dub domain is rejected when the route enables domain checks and the
workspace is not the dub workspace; a custom domain is rejected when no
domain row of the workspace has its slug. -/
def domainViolation (env : Env) (opts : RouteOpts) (ws : WorkspaceView)
    (domain : Option String) : Bool :=
  match domain with
  | some d =>
    if env.dubDomains.contains d then
      opts.domainChecks && !(ws.id == env.dubWorkspaceId)
    else
      (ws.domains.find? (fun x => x.slug == d)) == none
  | none => false

/-- Clicks overage condition of line 400. -/
def clicksBranch (opts : RouteOpts) (ws : WorkspaceView) : Bool :=
  opts.needNotExceededClicks && decide (ws.usage > ws.usageLimit)

/-- Links overage condition of lines 412-416: only free and pro plans
are subject to the links limit. -/
def linksBranch (opts : RouteOpts) (ws : WorkspaceView) : Bool :=
  opts.needNotExceededLinks && decide (ws.linksUsage > ws.linksLimit) &&
    (ws.plan == "free" || ws.plan == "pro")

/-- Message of `exceededLimitError` from `@/lib/api/errors`, an external
formatting helper excluded by the specification; the model keeps the
plan, the limit and the usage type in the message. -/
def exceededLimitError (plan : String) (limit : Int) (ty : String) : String :=
  "Exceeded " ++ ty ++ " limit of " ++ toString limit ++ " on plan " ++ plan

/-- Link ownership condition of lines 449-457. -/
def linkCheckApplies (opts : RouteOpts) (a : AuthOut) : Bool :=
  (truthy a.linkId ||
    (truthy a.domain && truthy a.key && !(a.key == some "_root"))) &&
    !opts.skipLinkChecks

/-- Result of the pending-invite branch (lines 369-397): a lookup of the
invite by caller email and project id, then not-found, expired or
pending. -/
def inviteResult (env : Env) (a : AuthOut) (ws : WorkspaceView) : MWResult :=
  match env.invites.find? (fun i =>
      i.1 == a.session.email && i.2.1 == ws.id) with
  | none => MWResult.error .notFound "Workspace not found."
  | some i =>
    if i.2.2 < env.now then
      MWResult.error .inviteExpired "Workspace invite expired."
    else
      MWResult.error .invitePending "Workspace invite pending."

/-- Entitlement stage, covering lines 317-469 in source order: scope
check, beta check, external-id link re-fetch, domain check, the
pending-invite branch, clicks and links overage checks, plan check,
analytics restriction for free plans with an API key, link ownership
check, and finally the handler invocation. -/
def stageEntitle (env : Env) (opts : RouteOpts) (a : AuthOut)
    (ws : WorkspaceView) (link0 : Option LinkRec) (scopes : List String) :
    List Eff × MWResult :=
  if !opts.skipScopeChecks && !hasRequiredScopes opts.requiredScopes scopes then
    ([], MWResult.error .forbidden "Unauthorized: Missing required scopes.")
  else if opts.betaFeature && !(env.betaTesters.contains ws.id) then
    ([Eff.betaQuery], MWResult.error .forbidden "Unauthorized: Beta feature.")
  else
    let t1 := entitleTrace opts a link0
    let link := linkAfterRefetch env a ws link0
    if truthy a.domain && domainViolation env opts ws a.domain then
      (t1, MWResult.error .forbidden "Domain does not belong to workspace.")
    else if ws.users.length == 0 then
      (t1 ++ [Eff.inviteQuery], inviteResult env a ws)
    else if clicksBranch opts ws then
      (t1, MWResult.error .forbidden (exceededLimitError ws.plan ws.usageLimit "clicks"))
    else if linksBranch opts ws then
      (t1, MWResult.error .forbidden (exceededLimitError ws.plan ws.linksLimit "links"))
    else if !(opts.requiredPlan.contains ws.plan) then
      (t1, MWResult.error .forbidden "Unauthorized: Need higher plan.")
    else if ws.plan == "free" && truthy a.apiKey &&
        strContains env.urlPathname "/analytics" then
      (t1, MWResult.error .forbidden "Analytics API is only available on paid plans.")
    else if linkCheckApplies opts a &&
        (match link with
         | none => true
         | some l => !(l.projectId == some ws.id)) then
      (t1, MWResult.error .notFound "Link not found.")
    else
      (t1, MWResult.handled
        { headers := a.headers, session := a.session, workspace := ws,
          domain := a.domain, link := link, scopes := scopes })

/-! ## The composed middleware -/

/-- Full middleware run with its trace of external interactions. -/
def middlewareT (env : Env) (opts : RouteOpts) : List Eff × MWResult :=
  match stageAuth env opts with
  | (t, Sum.inl r) => (t, r)
  | (t, Sum.inr a) =>
    match stageWorkspace env a with
    | (t2, Sum.inl r) => (t ++ t2, r)
    | (t2, Sum.inr (ws, link0, scopes)) =>
      let s3 := stageEntitle env opts a ws link0 scopes
      (t ++ t2 ++ s3.1, s3.2)

/-- Middleware outcome. -/
def middleware (env : Env) (opts : RouteOpts) : MWResult :=
  (middlewareT env opts).2

/-! ## The primary-domain endpoint
(src/apps/web/app/api/domains/[domain]/primary/route.ts) -/

/-- First update of the handler (route.ts lines 10-17): set the primary
flag of the domain row with the given slug.  The slug is a unique column,
so the update touches exactly the rows with that slug. -/
def updatePrimaryTrue (db : List DomainRec) (d : String) : List DomainRec :=
  db.map (fun r => if r.slug == d then { r with primary := true } else r)

/-- Second update of the handler (route.ts lines 19-30): clear the
primary flag on every other currently-primary domain of the
workspace. -/
def unsetOtherPrimaries (db : List DomainRec) (wsId d : String) :
    List DomainRec :=
  db.map (fun r =>
    if r.projectId == wsId && r.primary && !(r.slug == d) then
      { r with primary := false }
    else r)

/-- The pair of updates of the handler.  The two updates run under
`Promise.all` and touch disjoint sets of rows (slug equal to the target
versus slug different from the target), so their sequential composition
in either order models the concurrent pair. -/
def applyPrimary (db : List DomainRec) (wsId d : String) : List DomainRec :=
  unsetOtherPrimaries (updatePrimaryTrue db d) wsId d

/-- Handler body of the endpoint: the updated row returned by the first
update together with the new domain table.  A missing row makes the ORM
update throw, modelled as `none`. -/
def primaryHandler (db : List DomainRec) (wsId d : String) :
    Option (DomainRec × List DomainRec) :=
  match db.find? (fun r => r.slug == d) with
  | none => none
  | some r => some ({ r with primary := true }, applyPrimary db wsId d)

/-- Route options of the endpoint (route.ts lines 35-38). -/
def primaryRouteOpts : RouteOpts :=
  { domainChecks := true, requiredScopes := ["domains.write"] }

/-- Outcome of a POST to the endpoint: an error response or the parsed
domain record with the response headers, each together with the domain
table after the request.  `DomainSchema.parse` is an external shape
validation and is modelled as the identity on the record. -/
inductive RouteResult
  | errorResp (code : ErrCode) (msg : String) (db : List DomainRec)
  | ok (record : DomainRec) (headers : Option RLHeaders) (db : List DomainRec)
deriving DecidableEq, Repr

/-- POST /api/domains/[domain]/primary: the middleware with the route
options of the endpoint, then the handler body.  The anonymous arm is
unreachable because the route does not set `allowAnonymous`; an absent
domain parameter or a missing domain row makes the ORM update throw,
which surfaces as an error response. -/
def primaryPOST (env : Env) : RouteResult :=
  match middleware env primaryRouteOpts with
  | MWResult.error c m => RouteResult.errorResp c m env.domains
  | MWResult.anonymous _ =>
    RouteResult.errorResp .internalError "Anonymous invocation." env.domains
  | MWResult.handled ctx =>
    match ctx.domain with
    | none => RouteResult.errorResp .internalError "Missing domain." env.domains
    | some d =>
      match primaryHandler env.domains ctx.workspace.id d with
      | none =>
        RouteResult.errorResp .internalError "Record not found." env.domains
      | some (rec, db2) => RouteResult.ok rec ctx.headers db2

/-! ## Pointwise form of the primary-domain update pair -/

/-- Pointwise effect of the pair of updates on one domain row. -/
def primStep (wsId d : String) (r : DomainRec) : DomainRec :=
  if r.slug == d then { r with primary := true }
  else if r.projectId == wsId && r.primary then { r with primary := false }
  else r

/-! ## Concrete environments used by the witnesses and counterexamples -/

/-- Baseline request environment: no request data, empty tables. -/
def envBase : Env :=
  { authHeader := none, pDomain := none, sDomain := none, sKey := none,
    pLinkId := none, sLinkId := none, sExternalId := none,
    pIdOrSlug := none, sWorkspaceId := none, pSlug := none,
    sProjectSlug := none, urlPathname := "/api/domains",
    session := none, restrictedTokens := [], tokens := [],
    rlSuccess := true, rlLimit := 600, rlRemaining := 599, rlReset := 60,
    projects := [], domains := [], links := [], invites := [], now := 0,
    betaTesters := [], dubDomains := ["dub.sh"], dubWorkspaceId := "dubws",
    roleScopes := fun r => if r == "owner" then ["domains.write"] else [] }

def uOwner : SessionUser :=
  { id := "u1", name := "Ann", email := "ann@acme.test", isMachine := false }

def projAcme : ProjectRec :=
  { id := "w1", slug := "acme", members := [("u1", "owner")], plan := "free",
    usage := 10, usageLimit := 100, linksUsage := 1, linksLimit := 25 }

def domAcme : DomainRec :=
  { id := "d1", slug := "acme.com", projectId := "w1", primary := false }

def domOld : DomainRec :=
  { id := "d2", slug := "old.com", projectId := "w1", primary := true }

def domOther : DomainRec :=
  { id := "d3", slug := "other.com", projectId := "w2", primary := true }

/-- A browser-session request against the acme workspace naming its
custom domain. -/
def envOkay : Env :=
  { envBase with
    session := some { user := some uOwner },
    pIdOrSlug := some "acme",
    pDomain := some "acme.com",
    projects := [projAcme],
    domains := [domAcme, domOld, domOther] }

def wsAcme : WorkspaceView :=
  { id := "w1", slug := "acme", users := ["owner"],
    domains := [domAcme, domOld], plan := "free", usage := 10,
    usageLimit := 100, linksUsage := 1, linksLimit := 25 }

def ctxOkay : HandlerCtx :=
  { headers := none, session := uOwner, workspace := wsAcme,
    domain := some "acme.com", link := none, scopes := ["domains.write"] }

/-- `AuthOut` of the session path for `envOkay`-shaped requests. -/
def aOkay : AuthOut :=
  { apiKey := none, isRestricted := false, tokenScopes := none,
    headers := none, session := uOwner, workspaceId := none,
    workspaceSlug := some "acme", domain := some "acme.com", key := none,
    linkId := none }

def envEvil : Env := { envOkay with pDomain := some "evil.com" }

def aEvil : AuthOut := { aOkay with domain := some "evil.com" }

def envClicks : Env :=
  { envOkay with
    pDomain := none,
    projects := [{ projAcme with usage := 101 }] }

def aNoDomain : AuthOut := { aOkay with domain := none }

def wsClicks : WorkspaceView := { wsAcme with usage := 101 }

def envLinks : Env :=
  { envOkay with
    pDomain := none,
    projects := [{ projAcme with linksUsage := 99 }] }

def wsLinks : WorkspaceView := { wsAcme with linksUsage := 99 }

def envLinksBiz : Env :=
  { envOkay with
    pDomain := none,
    projects := [{ projAcme with plan := "business", linksUsage := 99 }] }

def ctxLinksBiz : HandlerCtx :=
  { headers := none, session := uOwner,
    workspace := { wsAcme with plan := "business", linksUsage := 99 },
    domain := none, link := none, scopes := ["domains.write"] }

def envBadHeader : Env := { envBase with authHeader := some "Token abc" }

/-- The envOkay request with a present but empty Authorization header:
the header is falsy in the source, so validation is skipped and the
run proceeds on the session path. -/
def envEmptyHeader : Env := { envOkay with authHeader := some "" }

def envTok : Env :=
  { envBase with
    authHeader := some "Bearer dub_tok1",
    restrictedTokens := [("dub_tok1",
      { scopes := some "domains.write", rateLimit := some 600,
        projectId := "w1",
        user := some { id := "", name := none, email := none,
                       isMachine := false } })],
    projects := [{ id := "w1", slug := "acme", members := [("", "owner")],
                   plan := "free", usage := 0, usageLimit := 100,
                   linksUsage := 0, linksLimit := 25 }] }

def ctxTok : HandlerCtx :=
  { headers := some { limit := 600, remaining := 599, reset := 60 },
    session := { id := "", name := "", email := "", isMachine := false },
    workspace := { id := "w1", slug := "acme", users := ["owner"],
                   domains := [], plan := "free", usage := 0,
                   usageLimit := 100, linksUsage := 0, linksLimit := 25 },
    domain := none, link := none, scopes := ["domains.write"] }

def recOkay : DomainRec :=
  { id := "d1", slug := "acme.com", projectId := "w1", primary := true }

def dbOkay : List DomainRec :=
  [recOkay,
   { id := "d2", slug := "old.com", projectId := "w1", primary := false },
   domOther]

/-! ## Inversion and equation lemmas for the stages -/

lemma stageEntitle_scope_err {env : Env} {opts : RouteOpts} {a : AuthOut}
    {ws : WorkspaceView} {link0 : Option LinkRec} {scopes : List String}
    (h1 : (!opts.skipScopeChecks && !hasRequiredScopes opts.requiredScopes scopes) = true) :
    stageEntitle env opts a ws link0 scopes =
      ([], MWResult.error .forbidden "Unauthorized: Missing required scopes.") := by
  simp only [stageEntitle, h1]
  simp

lemma stageEntitle_beta_err {env : Env} {opts : RouteOpts} {a : AuthOut}
    {ws : WorkspaceView} {link0 : Option LinkRec} {scopes : List String}
    (h1 : (!opts.skipScopeChecks && !hasRequiredScopes opts.requiredScopes scopes) = false)
    (h2 : (opts.betaFeature && !(env.betaTesters.contains ws.id)) = true) :
    stageEntitle env opts a ws link0 scopes =
      ([Eff.betaQuery], MWResult.error .forbidden "Unauthorized: Beta feature.") := by
  simp only [stageEntitle, h1, h2]
  simp

lemma stageEntitle_domain_err {env : Env} {opts : RouteOpts} {a : AuthOut}
    {ws : WorkspaceView} {link0 : Option LinkRec} {scopes : List String}
    (h1 : (!opts.skipScopeChecks && !hasRequiredScopes opts.requiredScopes scopes) = false)
    (h2 : (opts.betaFeature && !(env.betaTesters.contains ws.id)) = false)
    (h3 : (truthy a.domain && domainViolation env opts ws a.domain) = true) :
    stageEntitle env opts a ws link0 scopes =
      (entitleTrace opts a link0,
        MWResult.error .forbidden "Domain does not belong to workspace.") := by
  simp only [stageEntitle, h1, h2, h3]
  simp

lemma stageEntitle_clicks_err {env : Env} {opts : RouteOpts} {a : AuthOut}
    {ws : WorkspaceView} {link0 : Option LinkRec} {scopes : List String}
    (h1 : (!opts.skipScopeChecks && !hasRequiredScopes opts.requiredScopes scopes) = false)
    (h2 : (opts.betaFeature && !(env.betaTesters.contains ws.id)) = false)
    (h3 : (truthy a.domain && domainViolation env opts ws a.domain) = false)
    (h4 : (ws.users.length == 0) = false)
    (h5 : clicksBranch opts ws = true) :
    stageEntitle env opts a ws link0 scopes =
      (entitleTrace opts a link0,
        MWResult.error .forbidden (exceededLimitError ws.plan ws.usageLimit "clicks")) := by
  simp only [stageEntitle, h1, h2, h3, h4, h5]
  simp

lemma stageEntitle_links_err {env : Env} {opts : RouteOpts} {a : AuthOut}
    {ws : WorkspaceView} {link0 : Option LinkRec} {scopes : List String}
    (h1 : (!opts.skipScopeChecks && !hasRequiredScopes opts.requiredScopes scopes) = false)
    (h2 : (opts.betaFeature && !(env.betaTesters.contains ws.id)) = false)
    (h3 : (truthy a.domain && domainViolation env opts ws a.domain) = false)
    (h4 : (ws.users.length == 0) = false)
    (h5 : clicksBranch opts ws = false)
    (h6 : linksBranch opts ws = true) :
    stageEntitle env opts a ws link0 scopes =
      (entitleTrace opts a link0,
        MWResult.error .forbidden (exceededLimitError ws.plan ws.linksLimit "links")) := by
  simp only [stageEntitle, h1, h2, h3, h4, h5, h6]
  simp

lemma stageEntitle_ok {env : Env} {opts : RouteOpts} {a : AuthOut}
    {ws : WorkspaceView} {link0 : Option LinkRec} {scopes : List String}
    (h1 : (!opts.skipScopeChecks && !hasRequiredScopes opts.requiredScopes scopes) = false)
    (h2 : (opts.betaFeature && !(env.betaTesters.contains ws.id)) = false)
    (h3 : (truthy a.domain && domainViolation env opts ws a.domain) = false)
    (h4 : (ws.users.length == 0) = false)
    (h5 : clicksBranch opts ws = false)
    (h6 : linksBranch opts ws = false)
    (h7 : (!(opts.requiredPlan.contains ws.plan)) = false)
    (h8 : (ws.plan == "free" && truthy a.apiKey &&
            strContains env.urlPathname "/analytics") = false)
    (h9 : (linkCheckApplies opts a &&
            (match linkAfterRefetch env a ws link0 with
             | none => true
             | some l => !(l.projectId == some ws.id))) = false) :
    stageEntitle env opts a ws link0 scopes =
      (entitleTrace opts a link0,
        MWResult.handled
          { headers := a.headers, session := a.session, workspace := ws,
            domain := a.domain, link := linkAfterRefetch env a ws link0,
            scopes := scopes }) := by
  simp only [stageEntitle, h1, h2, h3, h4, h5, h6, h7, h8, h9]
  simp

lemma stageAuth_inl_shape {env : Env} {opts : RouteOpts} {t : List Eff}
    {r : MWResult} (h : stageAuth env opts = (t, Sum.inl r)) :
    (∀ ctx, r ≠ MWResult.handled ctx) ∧
    (∀ m, r ≠ MWResult.error .invitePending m ∧
          r ≠ MWResult.error .inviteExpired m) ∧
    Eff.inviteQuery ∉ t := by
  simp only [stageAuth, stageAuthRest, authSessionBranch, authTokenBranch] at h
  repeat' split at h
  all_goals simp only [Prod.mk.injEq] at h
  all_goals obtain ⟨ht, hr⟩ := h
  all_goals first
    | exact Sum.noConfusion hr
    | (cases hr; cases ht; simp)

lemma stageWorkspace_inl_shape {env : Env} {a : AuthOut} {t : List Eff}
    {r : MWResult} (h : stageWorkspace env a = (t, Sum.inl r)) :
    r = MWResult.error .notFound "Workspace not found." ∧
    Eff.inviteQuery ∉ t := by
  simp only [stageWorkspace] at h
  repeat' split at h
  all_goals simp only [Prod.mk.injEq] at h
  all_goals obtain ⟨ht, hr⟩ := h
  all_goals first
    | exact Sum.noConfusion hr
    | (cases hr; cases ht; constructor
       · rfl
       · simp)

lemma stageWorkspace_inr_shape {env : Env} {a : AuthOut} {t : List Eff}
    {ws : WorkspaceView} {link0 : Option LinkRec} {scopes : List String}
    (h : stageWorkspace env a = (t, Sum.inr (ws, link0, scopes))) :
    ws.users ≠ [] ∧ Eff.inviteQuery ∉ t := by
  simp only [stageWorkspace] at h
  repeat' split at h
  all_goals simp only [Prod.mk.injEq] at h
  all_goals obtain ⟨ht, hr⟩ := h
  all_goals first
    | exact Sum.noConfusion hr
    | (cases hr; cases ht; constructor
       · simp_all [List.isEmpty_iff]
       · simp)

lemma stageEntitle_invite_arm {env : Env} {opts : RouteOpts} {a : AuthOut}
    {ws : WorkspaceView} {link0 : Option LinkRec} {scopes : List String}
    (h1 : (!opts.skipScopeChecks && !hasRequiredScopes opts.requiredScopes scopes) = false)
    (h2 : (opts.betaFeature && !(env.betaTesters.contains ws.id)) = false)
    (h3 : (truthy a.domain && domainViolation env opts ws a.domain) = false)
    (h4 : (ws.users.length == 0) = true) :
    stageEntitle env opts a ws link0 scopes =
      (entitleTrace opts a link0 ++ [Eff.inviteQuery], inviteResult env a ws) := by
  simp only [stageEntitle, h1, h2, h3, h4]
  simp

lemma stageEntitle_plan_err {env : Env} {opts : RouteOpts} {a : AuthOut}
    {ws : WorkspaceView} {link0 : Option LinkRec} {scopes : List String}
    (h1 : (!opts.skipScopeChecks && !hasRequiredScopes opts.requiredScopes scopes) = false)
    (h2 : (opts.betaFeature && !(env.betaTesters.contains ws.id)) = false)
    (h3 : (truthy a.domain && domainViolation env opts ws a.domain) = false)
    (h4 : (ws.users.length == 0) = false)
    (h5 : clicksBranch opts ws = false)
    (h6 : linksBranch opts ws = false)
    (h7 : (!(opts.requiredPlan.contains ws.plan)) = true) :
    stageEntitle env opts a ws link0 scopes =
      (entitleTrace opts a link0,
        MWResult.error .forbidden "Unauthorized: Need higher plan.") := by
  simp only [stageEntitle, h1, h2, h3, h4, h5, h6, h7]
  simp

lemma stageEntitle_analytics_err {env : Env} {opts : RouteOpts} {a : AuthOut}
    {ws : WorkspaceView} {link0 : Option LinkRec} {scopes : List String}
    (h1 : (!opts.skipScopeChecks && !hasRequiredScopes opts.requiredScopes scopes) = false)
    (h2 : (opts.betaFeature && !(env.betaTesters.contains ws.id)) = false)
    (h3 : (truthy a.domain && domainViolation env opts ws a.domain) = false)
    (h4 : (ws.users.length == 0) = false)
    (h5 : clicksBranch opts ws = false)
    (h6 : linksBranch opts ws = false)
    (h7 : (!(opts.requiredPlan.contains ws.plan)) = false)
    (h8 : (ws.plan == "free" && truthy a.apiKey &&
            strContains env.urlPathname "/analytics") = true) :
    stageEntitle env opts a ws link0 scopes =
      (entitleTrace opts a link0,
        MWResult.error .forbidden "Analytics API is only available on paid plans.") := by
  simp only [stageEntitle, h1, h2, h3, h4, h5, h6, h7, h8]
  simp

lemma stageEntitle_link_err {env : Env} {opts : RouteOpts} {a : AuthOut}
    {ws : WorkspaceView} {link0 : Option LinkRec} {scopes : List String}
    (h1 : (!opts.skipScopeChecks && !hasRequiredScopes opts.requiredScopes scopes) = false)
    (h2 : (opts.betaFeature && !(env.betaTesters.contains ws.id)) = false)
    (h3 : (truthy a.domain && domainViolation env opts ws a.domain) = false)
    (h4 : (ws.users.length == 0) = false)
    (h5 : clicksBranch opts ws = false)
    (h6 : linksBranch opts ws = false)
    (h7 : (!(opts.requiredPlan.contains ws.plan)) = false)
    (h8 : (ws.plan == "free" && truthy a.apiKey &&
            strContains env.urlPathname "/analytics") = false)
    (h9 : (linkCheckApplies opts a &&
            (match linkAfterRefetch env a ws link0 with
             | none => true
             | some l => !(l.projectId == some ws.id))) = true) :
    stageEntitle env opts a ws link0 scopes =
      (entitleTrace opts a link0,
        MWResult.error .notFound "Link not found.") := by
  simp only [stageEntitle, h1, h2, h3, h4, h5, h6, h7, h8, h9]
  simp

lemma inviteResult_not_handled {env : Env} {a : AuthOut} {ws : WorkspaceView} :
    ∀ ctx, inviteResult env a ws ≠ MWResult.handled ctx := by
  intro ctx
  unfold inviteResult
  repeat' split
  all_goals simp

lemma stageEntitle_handled_inv {env : Env} {opts : RouteOpts} {a : AuthOut}
    {ws : WorkspaceView} {link0 : Option LinkRec} {scopes : List String}
    {t : List Eff} {ctx : HandlerCtx}
    (h : stageEntitle env opts a ws link0 scopes = (t, MWResult.handled ctx)) :
    (!opts.skipScopeChecks && !hasRequiredScopes opts.requiredScopes scopes) = false ∧
    (truthy a.domain && domainViolation env opts ws a.domain) = false ∧
    clicksBranch opts ws = false ∧
    linksBranch opts ws = false ∧
    (!(opts.requiredPlan.contains ws.plan)) = false ∧
    t = entitleTrace opts a link0 ∧
    Eff.inviteQuery ∉ t ∧
    ctx = { headers := a.headers, session := a.session, workspace := ws,
            domain := a.domain, link := linkAfterRefetch env a ws link0,
            scopes := scopes } := by
  cases h1 : (!opts.skipScopeChecks && !hasRequiredScopes opts.requiredScopes scopes) with
  | true => rw [stageEntitle_scope_err h1] at h; simp at h
  | false =>
  cases h2 : (opts.betaFeature && !(env.betaTesters.contains ws.id)) with
  | true => rw [stageEntitle_beta_err h1 h2] at h; simp at h
  | false =>
  cases h3 : (truthy a.domain && domainViolation env opts ws a.domain) with
  | true => rw [stageEntitle_domain_err h1 h2 h3] at h; simp at h
  | false =>
  cases h4 : (ws.users.length == 0) with
  | true =>
    rw [stageEntitle_invite_arm h1 h2 h3 h4] at h
    exact absurd (congrArg Prod.snd h) (by simpa using inviteResult_not_handled ctx)
  | false =>
  cases h5 : clicksBranch opts ws with
  | true => rw [stageEntitle_clicks_err h1 h2 h3 h4 h5] at h; simp at h
  | false =>
  cases h6 : linksBranch opts ws with
  | true => rw [stageEntitle_links_err h1 h2 h3 h4 h5 h6] at h; simp at h
  | false =>
  cases h7 : (!(opts.requiredPlan.contains ws.plan)) with
  | true => rw [stageEntitle_plan_err h1 h2 h3 h4 h5 h6 h7] at h; simp at h
  | false =>
  cases h8 : (ws.plan == "free" && truthy a.apiKey &&
      strContains env.urlPathname "/analytics") with
  | true => rw [stageEntitle_analytics_err h1 h2 h3 h4 h5 h6 h7 h8] at h; simp at h
  | false =>
  cases h9 : (linkCheckApplies opts a &&
      (match linkAfterRefetch env a ws link0 with
       | none => true
       | some l => !(l.projectId == some ws.id))) with
  | true => rw [stageEntitle_link_err h1 h2 h3 h4 h5 h6 h7 h8 h9] at h; simp at h
  | false =>
    rw [stageEntitle_ok h1 h2 h3 h4 h5 h6 h7 h8 h9] at h
    injection h with ht hc
    injection hc with hc
    subst ht
    refine ⟨rfl, rfl, rfl, rfl, rfl, rfl, ?_, hc.symm⟩
    unfold entitleTrace
    repeat' split
    all_goals simp

lemma middlewareT_eq_of_stages {env : Env} {opts : RouteOpts} {t1 t2 : List Eff}
    {a : AuthOut} {ws : WorkspaceView} {link0 : Option LinkRec}
    {scopes : List String}
    (hsa : stageAuth env opts = (t1, Sum.inr a))
    (hsw : stageWorkspace env a = (t2, Sum.inr (ws, link0, scopes))) :
    middlewareT env opts =
      (t1 ++ t2 ++ (stageEntitle env opts a ws link0 scopes).1,
        (stageEntitle env opts a ws link0 scopes).2) := by
  simp only [middlewareT, hsa, hsw]

lemma middlewareT_eq_of_auth_err {env : Env} {opts : RouteOpts} {t1 : List Eff}
    {r : MWResult} (hsa : stageAuth env opts = (t1, Sum.inl r)) :
    middlewareT env opts = (t1, r) := by
  simp only [middlewareT, hsa]

lemma middlewareT_eq_of_ws_err {env : Env} {opts : RouteOpts} {t1 t2 : List Eff}
    {a : AuthOut} {r : MWResult}
    (hsa : stageAuth env opts = (t1, Sum.inr a))
    (hsw : stageWorkspace env a = (t2, Sum.inl r)) :
    middlewareT env opts = (t1 ++ t2, r) := by
  simp only [middlewareT, hsa, hsw]

lemma middleware_handled_inv {env : Env} {opts : RouteOpts} {ctx : HandlerCtx}
    (h : middleware env opts = MWResult.handled ctx) :
    ∃ t1 a t2 ws link0 scopes,
      stageAuth env opts = (t1, Sum.inr a) ∧
      stageWorkspace env a = (t2, Sum.inr (ws, link0, scopes)) ∧
      stageEntitle env opts a ws link0 scopes =
        ((stageEntitle env opts a ws link0 scopes).1, MWResult.handled ctx) := by
  rcases hsa : stageAuth env opts with ⟨t1, r1⟩
  cases r1 with
  | inl r =>
    rw [middleware, middlewareT_eq_of_auth_err hsa] at h
    exact absurd h ((stageAuth_inl_shape hsa).1 ctx)
  | inr a =>
    rcases hsw : stageWorkspace env a with ⟨t2, r2⟩
    cases r2 with
    | inl r =>
      rw [middleware, middlewareT_eq_of_ws_err hsa hsw] at h
      rw [(stageWorkspace_inl_shape hsw).1] at h
      exact absurd h (by simp)
    | inr x =>
      obtain ⟨ws, link0, scopes⟩ := x
      rw [middleware, middlewareT_eq_of_stages hsa hsw] at h
      have h2 : (stageEntitle env opts a ws link0 scopes).2 =
          MWResult.handled ctx := h
      refine ⟨t1, a, t2, ws, link0, scopes, rfl, hsw, ?_⟩
      rw [← h2]

lemma applyPrimary_eq_map (db : List DomainRec) (wsId d : String) :
    applyPrimary db wsId d = db.map (primStep wsId d) := by
  unfold applyPrimary unsetOtherPrimaries updatePrimaryTrue
  rw [List.map_map]
  apply List.map_congr_left
  intro r _
  simp only [Function.comp_apply]
  cases hs : (r.slug == d) with
  | true => simp [primStep, hs]
  | false =>
    cases hp : (r.projectId == wsId && r.primary) with
    | true => simp [primStep, hs, hp]
    | false => simp [primStep, hs, hp]

lemma primStep_idem (wsId d : String) (r : DomainRec) :
    primStep wsId d (primStep wsId d r) = primStep wsId d r := by
  cases hs : (r.slug == d) with
  | true => simp [primStep, hs]
  | false =>
    cases hp : (r.projectId == wsId && r.primary) with
    | true => simp [primStep, hs, hp]
    | false => simp [primStep, hs, hp]

/-- C9: the database update pair of the primary-domain endpoint is
idempotent: applying the pair (set the named domain primary, unset the
other primary domains of the workspace) twice yields the same domain
table as applying it once, for every domain table, workspace id and
domain slug. -/
theorem primary_pair_idempotent (db : List DomainRec) (wsId d : String) :
    applyPrimary (applyPrimary db wsId d) wsId d = applyPrimary db wsId d := by
  rw [applyPrimary_eq_map, applyPrimary_eq_map, List.map_map]
  apply List.map_congr_left
  intro r _
  simp only [Function.comp_apply]
  exact primStep_idem wsId d r

/-- C6 (amended): a request whose Authorization header is present and
non-empty (truthy) but does not contain the substring Bearer-with-space
is rejected with a bad_request error before any external interaction:
the trace is empty (no workspace resolution, no entitlement query) and
the handler is never invoked.  An empty header is falsy in the source
(`if (authorizationHeader)`, line 90) and skips validation; see the
counterexample `empty_header_not_rejected`. -/
theorem bad_bearer_header_rejected (env : Env) (opts : RouteOpts) (h : String)
    (hh : env.authHeader = some h) (hne : h ≠ "")
    (hb : strContains h "Bearer " = false) :
    middlewareT env opts =
      ([], MWResult.error .badRequest "Misconfigured authorization header.") := by
  have hsa : stageAuth env opts =
      ([], Sum.inl (MWResult.error .badRequest
        "Misconfigured authorization header.")) := by
    simp only [stageAuth, hh, hb]
    simp [hne]
  exact middlewareT_eq_of_auth_err hsa

/-- C10: on a route with allowAnonymous, a request with no Authorization
header and no workspace id or slug makes the middleware invoke the
handler immediately and anonymously: the result carries only the empty
headers (no session, workspace, scopes or link), and the trace is empty,
so every authentication, scope, plan, usage, domain and link check is
bypassed. -/
theorem anonymous_bypass (env : Env) (opts : RouteOpts)
    (ha : opts.allowAnonymous = true)
    (hh : env.authHeader = none)
    (hi : truthy (idOrSlugOf env) = false) :
    middlewareT env opts = ([], MWResult.anonymous none) := by
  have hsa : stageAuth env opts = ([], Sum.inl (MWResult.anonymous none)) := by
    simp only [stageAuth, hh, stageAuthRest, hi, ha]
    simp [truthy]
  exact middlewareT_eq_of_auth_err hsa

lemma stageAuth_inr_trace {env : Env} {opts : RouteOpts} {t : List Eff}
    {a : AuthOut} (h : stageAuth env opts = (t, Sum.inr a)) :
    Eff.inviteQuery ∉ t := by
  simp only [stageAuth, stageAuthRest, authSessionBranch, authTokenBranch] at h
  repeat' split at h
  all_goals simp only [Prod.mk.injEq] at h
  all_goals obtain ⟨ht, hr⟩ := h
  all_goals first
    | exact Sum.noConfusion hr
    | (cases ht; simp)

lemma entitleTrace_no_invite (opts : RouteOpts) (a : AuthOut)
    (link0 : Option LinkRec) : Eff.inviteQuery ∉ entitleTrace opts a link0 := by
  unfold entitleTrace
  repeat' split
  all_goals simp

lemma stageEntitle_no_invite {env : Env} {opts : RouteOpts} {a : AuthOut}
    {ws : WorkspaceView} {link0 : Option LinkRec} {scopes : List String}
    (husers : ws.users ≠ []) :
    (∀ m, (stageEntitle env opts a ws link0 scopes).2 ≠
            MWResult.error .invitePending m ∧
          (stageEntitle env opts a ws link0 scopes).2 ≠
            MWResult.error .inviteExpired m) ∧
    Eff.inviteQuery ∉ (stageEntitle env opts a ws link0 scopes).1 := by
  cases h1 : (!opts.skipScopeChecks && !hasRequiredScopes opts.requiredScopes scopes) with
  | true => rw [stageEntitle_scope_err h1]; exact ⟨by simp, by simp⟩
  | false =>
  cases h2 : (opts.betaFeature && !(env.betaTesters.contains ws.id)) with
  | true => rw [stageEntitle_beta_err h1 h2]; exact ⟨by simp, by simp⟩
  | false =>
  cases h3 : (truthy a.domain && domainViolation env opts ws a.domain) with
  | true =>
    rw [stageEntitle_domain_err h1 h2 h3]
    exact ⟨by simp, entitleTrace_no_invite opts a link0⟩
  | false =>
  cases h4 : (ws.users.length == 0) with
  | true => exact absurd (by simpa using h4) husers
  | false =>
  cases h5 : clicksBranch opts ws with
  | true =>
    rw [stageEntitle_clicks_err h1 h2 h3 h4 h5]
    exact ⟨by simp, entitleTrace_no_invite opts a link0⟩
  | false =>
  cases h6 : linksBranch opts ws with
  | true =>
    rw [stageEntitle_links_err h1 h2 h3 h4 h5 h6]
    exact ⟨by simp, entitleTrace_no_invite opts a link0⟩
  | false =>
  cases h7 : (!(opts.requiredPlan.contains ws.plan)) with
  | true =>
    rw [stageEntitle_plan_err h1 h2 h3 h4 h5 h6 h7]
    exact ⟨by simp, entitleTrace_no_invite opts a link0⟩
  | false =>
  cases h8 : (ws.plan == "free" && truthy a.apiKey &&
      strContains env.urlPathname "/analytics") with
  | true =>
    rw [stageEntitle_analytics_err h1 h2 h3 h4 h5 h6 h7 h8]
    exact ⟨by simp, entitleTrace_no_invite opts a link0⟩
  | false =>
  cases h9 : (linkCheckApplies opts a &&
      (match linkAfterRefetch env a ws link0 with
       | none => true
       | some l => !(l.projectId == some ws.id))) with
  | true =>
    rw [stageEntitle_link_err h1 h2 h3 h4 h5 h6 h7 h8 h9]
    exact ⟨by simp, entitleTrace_no_invite opts a link0⟩
  | false =>
    rw [stageEntitle_ok h1 h2 h3 h4 h5 h6 h7 h8 h9]
    exact ⟨by simp, entitleTrace_no_invite opts a link0⟩

/-- C8: the pending-invite branch is unreachable.  No middleware run
returns an invite_pending or invite_expired error, and no run performs
the pending-invite lookup, because a fetched workspace whose filtered
users relation is empty is already rejected with the not-found error of
the workspace stage. -/
theorem invite_branch_unreachable (env : Env) (opts : RouteOpts) :
    (∀ m, (middlewareT env opts).2 ≠ MWResult.error .invitePending m ∧
          (middlewareT env opts).2 ≠ MWResult.error .inviteExpired m) ∧
    Eff.inviteQuery ∉ (middlewareT env opts).1 := by
  rcases hsa : stageAuth env opts with ⟨t1, r1⟩
  cases r1 with
  | inl r =>
    rw [middlewareT_eq_of_auth_err hsa]
    obtain ⟨-, h2, h3⟩ := stageAuth_inl_shape hsa
    exact ⟨h2, h3⟩
  | inr a =>
    rcases hsw : stageWorkspace env a with ⟨t2, r2⟩
    cases r2 with
    | inl r =>
      rw [middlewareT_eq_of_ws_err hsa hsw]
      obtain ⟨hr, ht2⟩ := stageWorkspace_inl_shape hsw
      constructor
      · intro m; rw [hr]; simp
      · intro hmem
        rcases List.mem_append.1 hmem with hm | hm
        · exact stageAuth_inr_trace hsa hm
        · exact ht2 hm
    | inr x =>
      obtain ⟨ws, link0, scopes⟩ := x
      rw [middlewareT_eq_of_stages hsa hsw]
      obtain ⟨husers, ht2⟩ := stageWorkspace_inr_shape hsw
      obtain ⟨hres, htr⟩ :=
        @stageEntitle_no_invite env opts a ws link0 scopes husers
      constructor
      · exact hres
      · intro hmem
        rcases List.mem_append.1 hmem with hm | hm
        · rcases List.mem_append.1 hm with hm2 | hm2
          · exact stageAuth_inr_trace hsa hm2
          · exact ht2 hm2
        · exact htr hm

/-- C2: scope enforcement.  First, when scope checks are not skipped and
the resolved scopes do not grant every required scope, the entitlement
stage rejects the request with a forbidden error, so the route handler is
never invoked.  Second, whenever the handler is invoked on the full path,
every required scope is among the context scopes.  Third and fourth, the
scope resolution takes the space-separated scopes string of a restricted
token when the token carries one, and otherwise maps the role of the
caller in the workspace through the role-to-scopes table. -/
theorem scope_enforcement :
    (∀ (env : Env) (opts : RouteOpts) (a : AuthOut) (ws : WorkspaceView)
        (link0 : Option LinkRec) (scopes : List String),
        opts.skipScopeChecks = false →
        hasRequiredScopes opts.requiredScopes scopes = false →
        stageEntitle env opts a ws link0 scopes =
          ([], MWResult.error .forbidden "Unauthorized: Missing required scopes.")) ∧
    (∀ (env : Env) (opts : RouteOpts) (ctx : HandlerCtx),
        opts.skipScopeChecks = false →
        middleware env opts = MWResult.handled ctx →
        ∀ s ∈ opts.requiredScopes, s ∈ ctx.scopes) ∧
    (∀ (s : String) (rf : String → List String) (us : List String),
        computeScopes true (some s) rf us = splitScopes s) ∧
    (∀ (ts : Option String) (rf : String → List String) (r : String)
        (rest : List String),
        computeScopes false ts rf (r :: rest) = rf r) := by
  refine ⟨?_, ?_, ?_, ?_⟩
  · intro env opts a ws link0 scopes hskip hhas
    apply stageEntitle_scope_err
    simp [hskip, hhas]
  · intro env opts ctx hskip h s hs
    obtain ⟨t1, a, t2, ws, link0, scopes, hsa, hsw, hse⟩ := middleware_handled_inv h
    obtain ⟨hc1, -, -, -, -, -, -, hctx⟩ := stageEntitle_handled_inv hse
    rw [hskip] at hc1
    have hc1x : hasRequiredScopes opts.requiredScopes scopes = true := by
      simpa using hc1
    rw [hctx]
    simp only [hasRequiredScopes, List.all_eq_true] at hc1x
    have := hc1x s hs
    simpa using this
  · intro s rf us
    rfl
  · intro ts rf r rest
    rfl

/-- C3: domain ownership checks.  For a request that reaches the domain
check with a truthy domain parameter, a custom (non-dub) domain that no
domain row of the resolved workspace carries, or a dub domain on a route
with domainChecks when the workspace is not the dub workspace, makes the
middleware fail with the forbidden domain-ownership error. -/
theorem domain_ownership_enforced (env : Env) (opts : RouteOpts)
    (t1 t2 : List Eff) (a : AuthOut) (ws : WorkspaceView)
    (link0 : Option LinkRec) (scopes : List String) (d : String)
    (hsa : stageAuth env opts = (t1, Sum.inr a))
    (hsw : stageWorkspace env a = (t2, Sum.inr (ws, link0, scopes)))
    (hscope : (!opts.skipScopeChecks &&
      !hasRequiredScopes opts.requiredScopes scopes) = false)
    (hbeta : (opts.betaFeature && !(env.betaTesters.contains ws.id)) = false)
    (hd : a.domain = some d) (hde : d ≠ "")
    (hviol : (env.dubDomains.contains d = true ∧ opts.domainChecks = true ∧
                ws.id ≠ env.dubWorkspaceId) ∨
             (env.dubDomains.contains d = false ∧
                ws.domains.find? (fun x => x.slug == d) = none)) :
    middleware env opts =
      MWResult.error .forbidden "Domain does not belong to workspace." := by
  have hv : domainViolation env opts ws (some d) = true := by
    rcases hviol with ⟨hdub, hdc, hne⟩ | ⟨hdub, hfind⟩
    · have hmem : d ∈ env.dubDomains := by simpa using hdub
      simp [domainViolation, hdc, hne, hmem]
    · have hnmem : d ∉ env.dubDomains := by simpa using hdub
      have hfind2 : ∀ x ∈ ws.domains, ¬x.slug = d := by
        simpa [List.find?_eq_none] using hfind
      simp [domainViolation, hnmem]
      exact hfind2
  have h3 : (truthy a.domain && domainViolation env opts ws a.domain) = true := by
    rw [hd]
    simp [truthy, hde, hv]
  rw [middleware, middlewareT_eq_of_stages hsa hsw,
    stageEntitle_domain_err hscope hbeta h3]

/-- C4: clicks overage.  The clicks branch fires exactly when the route
needs the check and the usage is strictly greater than the limit; a
request reaching the check on such a workspace is rejected with the
forbidden exceeded-limit clicks error; and on a workspace whose usage
does not exceed the limit (equality included) the entitlement stage
behaves exactly as if the route did not request the check. -/
theorem clicks_limit_enforced :
    (∀ (opts : RouteOpts) (ws : WorkspaceView),
        clicksBranch opts ws = true ↔
          (opts.needNotExceededClicks = true ∧ ws.usage > ws.usageLimit)) ∧
    (∀ (env : Env) (opts : RouteOpts) (t1 t2 : List Eff) (a : AuthOut)
        (ws : WorkspaceView) (link0 : Option LinkRec) (scopes : List String),
        stageAuth env opts = (t1, Sum.inr a) →
        stageWorkspace env a = (t2, Sum.inr (ws, link0, scopes)) →
        (!opts.skipScopeChecks &&
          !hasRequiredScopes opts.requiredScopes scopes) = false →
        (opts.betaFeature && !(env.betaTesters.contains ws.id)) = false →
        (truthy a.domain && domainViolation env opts ws a.domain) = false →
        opts.needNotExceededClicks = true →
        ws.usage > ws.usageLimit →
        middleware env opts = MWResult.error .forbidden
          (exceededLimitError ws.plan ws.usageLimit "clicks")) ∧
    (∀ (env : Env) (opts : RouteOpts) (a : AuthOut) (ws : WorkspaceView)
        (link0 : Option LinkRec) (scopes : List String),
        ws.usage ≤ ws.usageLimit →
        stageEntitle env opts a ws link0 scopes =
          stageEntitle env { opts with needNotExceededClicks := false }
            a ws link0 scopes) := by
  refine ⟨?_, ?_, ?_⟩
  · intro opts ws
    simp [clicksBranch]
  · intro env opts t1 t2 a ws link0 scopes hsa hsw hscope hbeta hdom hneed hgt
    have h4 : (ws.users.length == 0) = false := by
      simpa using (stageWorkspace_inr_shape hsw).1
    have h5 : clicksBranch opts ws = true := by
      simp [clicksBranch, hneed, hgt]
    rw [middleware, middlewareT_eq_of_stages hsa hsw,
      stageEntitle_clicks_err hscope hbeta hdom h4 h5]
  · intro env opts a ws link0 scopes hle
    have h5 : clicksBranch opts ws = false := by
      simp [clicksBranch, not_lt.mpr hle]
    have h5x : clicksBranch { opts with needNotExceededClicks := false } ws = false := by
      simp [clicksBranch]
    simp only [stageEntitle, h5, h5x]
    simp [entitleTrace, refetchNeeded, domainViolation, linksBranch,
      linkCheckApplies]

/-- C5 (amended): links overage.  The links branch fires exactly when
the route needs the check, the links usage strictly exceeds the links
limit, and the plan is free or pro; a request reaching the check on such
a workspace is rejected with the forbidden exceeded-limit links error.
Workspaces on other plans are not subject to the check. -/
theorem links_limit_enforced_free_pro :
    (∀ (opts : RouteOpts) (ws : WorkspaceView),
        linksBranch opts ws = true ↔
          (opts.needNotExceededLinks = true ∧
            ws.linksUsage > ws.linksLimit ∧
            (ws.plan = "free" ∨ ws.plan = "pro"))) ∧
    (∀ (env : Env) (opts : RouteOpts) (t1 t2 : List Eff) (a : AuthOut)
        (ws : WorkspaceView) (link0 : Option LinkRec) (scopes : List String),
        stageAuth env opts = (t1, Sum.inr a) →
        stageWorkspace env a = (t2, Sum.inr (ws, link0, scopes)) →
        (!opts.skipScopeChecks &&
          !hasRequiredScopes opts.requiredScopes scopes) = false →
        (opts.betaFeature && !(env.betaTesters.contains ws.id)) = false →
        (truthy a.domain && domainViolation env opts ws a.domain) = false →
        clicksBranch opts ws = false →
        opts.needNotExceededLinks = true →
        ws.linksUsage > ws.linksLimit →
        (ws.plan = "free" ∨ ws.plan = "pro") →
        middleware env opts = MWResult.error .forbidden
          (exceededLimitError ws.plan ws.linksLimit "links")) := by
  constructor
  · intro opts ws
    simp [linksBranch, and_assoc]
  · intro env opts t1 t2 a ws link0 scopes hsa hsw hscope hbeta hdom hclicks
      hneed hgt hplan
    have h4 : (ws.users.length == 0) = false := by
      simpa using (stageWorkspace_inr_shape hsw).1
    have h6 : linksBranch opts ws = true := by
      rcases hplan with hp | hp
      · simp [linksBranch, hneed, hgt, hp]
      · simp [linksBranch, hneed, hgt, hp]
    rw [middleware, middlewareT_eq_of_stages hsa hsw,
      stageEntitle_links_err hscope hbeta hdom h4 hclicks h6]

lemma authSessionBranch_inr {env : Env} {base : AuthOut} {t : List Eff}
    {a : AuthOut} (h : authSessionBranch env base = (t, Sum.inr a)) :
    ∃ u, sessionOk env = some u ∧ a = { base with session := u } := by
  unfold authSessionBranch at h
  cases hs : sessionOk env with
  | none => simp only [hs] at h; simp at h
  | some u =>
    simp only [hs] at h
    simp only [Prod.mk.injEq] at h
    obtain ⟨-, hr⟩ := h
    injection hr with hx
    exact ⟨u, rfl, hx.symm⟩

lemma authSessionBranch_none {env : Env} {base : AuthOut}
    (hs : sessionOk env = none) :
    authSessionBranch env base =
      ([Eff.sessionRead],
        Sum.inl (MWResult.error .unauthorized "Unauthorized: Login required.")) := by
  simp [authSessionBranch, hs]

lemma authTokenBranch_inr {env : Env} {k : String} {isR : Bool}
    {base : AuthOut} {t : List Eff} {a : AuthOut}
    (h : authTokenBranch env k isR base = (t, Sum.inr a)) :
    ∃ tok u, lookupTokenData env k = some tok ∧ tok.user = some u ∧
      a = { base with
              headers := some { limit := env.rlLimit,
                                remaining := env.rlRemaining,
                                reset := env.rlReset },
              tokenScopes := tok.scopes,
              workspaceId := if isR then tok.projectId else base.workspaceId,
              session := { id := u.id, name := u.name.getD "",
                           email := u.email.getD "",
                           isMachine := u.isMachine } } := by
  unfold authTokenBranch at h
  cases hl : lookupTokenData env k with
  | none => simp only [hl] at h; simp at h
  | some tok =>
    simp only [hl] at h
    cases hu : tok.user with
    | none => simp only [hu] at h; simp at h
    | some u =>
      simp only [hu] at h
      cases hrl : env.rlSuccess with
      | false => rw [hrl] at h; simp at h
      | true =>
        rw [hrl] at h
        simp at h
        obtain ⟨-, ha⟩ := h
        exact ⟨tok, u, rfl, hu, ha.symm⟩

lemma authTokenBranch_user_err {env : Env} {k : String} {isR : Bool}
    {base : AuthOut}
    (hu : (lookupTokenData env k).bind TokenData.user = none) :
    authTokenBranch env k isR base =
      ([Eff.tokenQuery],
        Sum.inl (MWResult.error .unauthorized "Unauthorized: Invalid API key.")) := by
  cases hl : lookupTokenData env k with
  | none => simp [authTokenBranch, hl]
  | some tok =>
    rw [hl] at hu
    simp at hu
    simp [authTokenBranch, hl, hu]

lemma stageAuth_eq_rest {env : Env} {opts : RouteOpts}
    (hgood : env.authHeader = none ∨ env.authHeader = some "" ∨
      ∃ hdr, env.authHeader = some hdr ∧ strContains hdr "Bearer " = true) :
    stageAuth env opts = stageAuthRest env opts (apiKeyOf env) := by
  rcases hgood with hah | hah | ⟨hdr, hah, hb⟩
  · simp [stageAuth, hah, apiKeyOf]
  · have hc : strContains "" "Bearer " = false := by decide
    simp [stageAuth, hah, apiKeyOf, hc]
  · have hne : hdr ≠ "" := by
      intro he
      subst he
      exact absurd hb (by decide)
    simp [stageAuth, hah, apiKeyOf, hb, hne]

lemma stageAuthRest_session {env : Env} {opts : RouteOpts}
    {apiKey : Option String}
    (hkey : truthy apiKey = false) (hid : truthy (idOrSlugOf env) = true) :
    stageAuthRest env opts apiKey =
      authSessionBranch env (authBase env apiKey) := by
  cases apiKey with
  | none => simp [stageAuthRest, hid]
  | some k =>
    have hk : k = "" := by simpa [truthy] using hkey
    subst hk
    simp [stageAuthRest, hid]

lemma stageAuthRest_token {env : Env} {opts : RouteOpts} {k : String}
    (hk : k ≠ "")
    (hgate : (!truthy (idOrSlugOf env) && !strStartsWith k "dub_") = false) :
    stageAuthRest env opts (some k) =
      authTokenBranch env k (strStartsWith k "dub_") (authBase env (some k)) := by
  simp [stageAuthRest, hgate, hk]

lemma sessionOk_id_ne {env : Env} {u : SessionUser}
    (h : sessionOk env = some u) : u.id ≠ "" := by
  unfold sessionOk at h
  repeat' split at h
  all_goals simp_all

lemma sessionPath_inr_session {env : Env} {opts : RouteOpts} {t1 : List Eff}
    {a : AuthOut} (hsa : stageAuthRest env opts none = (t1, Sum.inr a)) :
    ∃ u, sessionOk env = some u ∧ a.session = u ∧ u.id ≠ "" := by
  cases hid : truthy (idOrSlugOf env) with
  | false =>
    simp only [stageAuthRest, hid] at hsa
    repeat' split at hsa
    all_goals first
      | simp at hsa
      | (exfalso; simp_all)
  | true =>
    rw [@stageAuthRest_session env opts none rfl hid] at hsa
    obtain ⟨u, hsu, haq⟩ := authSessionBranch_inr hsa
    exact ⟨u, hsu, by rw [haq], sessionOk_id_ne hsu⟩

/-- C7 (amended): caller identity normalization.  On the full path the
handler session comes from exactly one of the two mechanisms: when no
truthy API key is supplied, it is the browser-session user, whose id is
checked non-empty; when a truthy API key is supplied, it is built from
the user of the matched token, with name and email defaulting to the
empty string (the token path does not re-check that this id is
non-empty).  An API key matching no token, or a token without a user,
yields the unauthorized invalid-API-key error, and a missing or empty
browser session yields the unauthorized login-required error. -/
theorem caller_identity_normalized :
    (∀ (env : Env) (opts : RouteOpts) (ctx : HandlerCtx),
        middleware env opts = MWResult.handled ctx →
        truthy (apiKeyOf env) = false →
        ∃ u, sessionOk env = some u ∧ ctx.session = u ∧ u.id ≠ "") ∧
    (∀ (env : Env) (opts : RouteOpts) (ctx : HandlerCtx),
        middleware env opts = MWResult.handled ctx →
        truthy (apiKeyOf env) = true →
        ∃ k tok u, apiKeyOf env = some k ∧
          lookupTokenData env k = some tok ∧ tok.user = some u ∧
          ctx.session = { id := u.id, name := u.name.getD "",
                          email := u.email.getD "",
                          isMachine := u.isMachine }) ∧
    (∀ (env : Env) (opts : RouteOpts) (k : String),
        apiKeyOf env = some k → k ≠ "" →
        (lookupTokenData env k).bind TokenData.user = none →
        (truthy (idOrSlugOf env) = true ∨ strStartsWith k "dub_" = true) →
        middleware env opts =
          MWResult.error .unauthorized "Unauthorized: Invalid API key.") ∧
    (∀ (env : Env) (opts : RouteOpts),
        env.authHeader = none → truthy (idOrSlugOf env) = true →
        sessionOk env = none →
        middleware env opts =
          MWResult.error .unauthorized "Unauthorized: Login required.") := by
  refine ⟨?_, ?_, ?_, ?_⟩
  · intro env opts ctx h hkey
    obtain ⟨t1, a, t2, ws, link0, scopes, hsa, hsw, hse⟩ :=
      middleware_handled_inv h
    obtain ⟨-, -, -, -, -, -, -, hctx⟩ := stageEntitle_handled_inv hse
    have hsess : ctx.session = a.session := by rw [hctx]
    cases hah : env.authHeader with
    | none =>
      have hapi : apiKeyOf env = none := by simp [apiKeyOf, hah]
      rw [stageAuth_eq_rest (Or.inl hah), hapi] at hsa
      obtain ⟨u, hsu, hses, hid0⟩ := sessionPath_inr_session hsa
      exact ⟨u, hsu, by rw [hsess, hses], hid0⟩
    | some hdr =>
      by_cases hb : strContains hdr "Bearer " = true
      · have hapi : apiKeyOf env = some (strReplaceFirst hdr "Bearer ") := by
          simp [apiKeyOf, hah, hb]
        have hk0 : strReplaceFirst hdr "Bearer " = "" := by
          rw [hapi] at hkey
          simpa [truthy] using hkey
        rw [stageAuth_eq_rest (Or.inr (Or.inr ⟨hdr, hah, hb⟩)), hapi, hk0] at hsa
        cases hid : truthy (idOrSlugOf env) with
        | false =>
          have hnr : strStartsWith "" "dub_" = false := by decide
          simp only [stageAuthRest, hid, hnr] at hsa
          repeat' split at hsa
          all_goals first
            | simp at hsa
            | (exfalso; simp_all)
        | true =>
          rw [@stageAuthRest_session env opts (some "") (by decide) hid] at hsa
          obtain ⟨u, hsu, haq⟩ := authSessionBranch_inr hsa
          exact ⟨u, hsu, by rw [hsess, haq], sessionOk_id_ne hsu⟩
      · by_cases hem : hdr = ""
        · subst hem
          have heq : stageAuth env opts = stageAuthRest env opts none := by
            simp [stageAuth, hah]
          rw [heq] at hsa
          obtain ⟨u, hsu, hses, hid0⟩ := sessionPath_inr_session hsa
          exact ⟨u, hsu, by rw [hsess, hses], hid0⟩
        · have hbad : stageAuth env opts =
              ([], Sum.inl (MWResult.error .badRequest
                "Misconfigured authorization header.")) := by
            simp only [stageAuth, hah]
            simp [hem, hb]
          rw [hbad] at hsa
          simp at hsa
  · intro env opts ctx h hkey
    obtain ⟨t1, a, t2, ws, link0, scopes, hsa, hsw, hse⟩ :=
      middleware_handled_inv h
    obtain ⟨-, -, -, -, -, -, -, hctx⟩ := stageEntitle_handled_inv hse
    have hsess : ctx.session = a.session := by rw [hctx]
    cases hah : env.authHeader with
    | none =>
      have hapi : apiKeyOf env = none := by simp [apiKeyOf, hah]
      rw [hapi] at hkey
      simp [truthy] at hkey
    | some hdr =>
      by_cases hb : strContains hdr "Bearer " = true
      · have hapi : apiKeyOf env = some (strReplaceFirst hdr "Bearer ") := by
          simp [apiKeyOf, hah, hb]
        have hk : strReplaceFirst hdr "Bearer " ≠ "" := by
          rw [hapi] at hkey
          simpa [truthy] using hkey
        rw [stageAuth_eq_rest (Or.inr (Or.inr ⟨hdr, hah, hb⟩)), hapi] at hsa
        cases hgate : (!truthy (idOrSlugOf env) &&
            !strStartsWith (strReplaceFirst hdr "Bearer ") "dub_") with
        | true =>
          simp only [stageAuthRest, hgate] at hsa
          simp [truthy, hk] at hsa
        | false =>
          rw [stageAuthRest_token hk hgate] at hsa
          obtain ⟨tok, u, hlk, hu, haq⟩ := authTokenBranch_inr hsa
          exact ⟨strReplaceFirst hdr "Bearer ", tok, u, hapi, hlk, hu,
            by rw [hsess, haq]⟩
      · have hapi : apiKeyOf env = none := by simp [apiKeyOf, hah, hb]
        rw [hapi] at hkey
        simp [truthy] at hkey
  · intro env opts k hapi hk hu hgateor
    cases hah : env.authHeader with
    | none => simp [apiKeyOf, hah] at hapi
    | some hdr =>
      by_cases hb : strContains hdr "Bearer " = true
      · have hk2 : apiKeyOf env = some (strReplaceFirst hdr "Bearer ") := by
          simp [apiKeyOf, hah, hb]
        have hkk : strReplaceFirst hdr "Bearer " = k := by
          rw [hk2] at hapi
          injection hapi
        have hgate : (!truthy (idOrSlugOf env) && !strStartsWith k "dub_") = false := by
          rcases hgateor with hid | hdub
          · simp [hid]
          · simp [hdub]
        have hsa : stageAuth env opts =
            ([Eff.tokenQuery], Sum.inl (MWResult.error .unauthorized
              "Unauthorized: Invalid API key.")) := by
          rw [stageAuth_eq_rest (Or.inr (Or.inr ⟨hdr, hah, hb⟩)), hapi]
          rw [stageAuthRest_token hk hgate, authTokenBranch_user_err hu]
        rw [middleware, middlewareT_eq_of_auth_err hsa]
      · simp [apiKeyOf, hah, hb] at hapi
  · intro env opts hah hid hso
    have hapi : apiKeyOf env = none := by simp [apiKeyOf, hah]
    have hsa : stageAuth env opts =
        ([Eff.sessionRead], Sum.inl (MWResult.error .unauthorized
          "Unauthorized: Login required.")) := by
      rw [stageAuth_eq_rest (Or.inl hah), hapi,
        @stageAuthRest_session env opts none rfl hid,
        authSessionBranch_none hso]
    rw [middleware, middlewareT_eq_of_auth_err hsa]

lemma applyPrimary_slug_primary (db : List DomainRec) (wsId d : String) :
    ∀ r ∈ applyPrimary db wsId d, r.slug = d → r.primary = true := by
  intro r hr hslug
  rw [applyPrimary_eq_map] at hr
  obtain ⟨p, hp, hpq⟩ := List.mem_map.1 hr
  subst hpq
  cases hs : (p.slug == d) with
  | true => simp [primStep, hs]
  | false =>
    exfalso
    have hsl : (primStep wsId d p).slug = p.slug := by
      simp only [primStep, hs]
      simp only [Bool.false_eq_true, if_false]
      split <;> rfl
    rw [hsl] at hslug
    rw [hslug] at hs
    simp at hs

lemma applyPrimary_forall₂ (db : List DomainRec) (wsId d : String) :
    List.Forall₂ (fun p q =>
      (p.slug = d → q = { p with primary := true }) ∧
      (p.slug ≠ d → p.projectId = wsId → p.primary = true →
        q = { p with primary := false }) ∧
      (p.slug ≠ d → ¬(p.projectId = wsId ∧ p.primary = true) → q = p))
      db (applyPrimary db wsId d) := by
  rw [applyPrimary_eq_map]
  induction db with
  | nil => exact List.Forall₂.nil
  | cons hd tl ih =>
    refine List.Forall₂.cons ⟨?_, ?_, ?_⟩ ih
    · intro hs
      simp [primStep, hs]
    · intro hs hproj hprim
      have hsb : (hd.slug == d) = false := by simpa using hs
      simp [primStep, hsb, hproj, hprim]
    · intro hs hnot
      have hsb : (hd.slug == d) = false := by simpa using hs
      cases hc : (hd.projectId == wsId && hd.primary) with
      | false => simp [primStep, hsb, hc]
      | true =>
        exfalso
        apply hnot
        simpa using hc

/-- C1: a successful POST to the primary-domain endpoint leaves the
domain table with the named domain primary, clears the primary flag on
every other previously-primary domain of the authorized workspace,
leaves all other rows unchanged, and responds with the updated record of
the named domain. -/
theorem primary_post_success (env : Env) (rec : DomainRec)
    (hdrs : Option RLHeaders) (db2 : List DomainRec)
    (h : primaryPOST env = RouteResult.ok rec hdrs db2) :
    ∃ ctx d pre,
      middleware env primaryRouteOpts = MWResult.handled ctx ∧
      ctx.domain = some d ∧
      pre ∈ env.domains ∧ pre.slug = d ∧
      rec = { pre with primary := true } ∧
      rec.slug = d ∧ rec.primary = true ∧
      db2 = applyPrimary env.domains ctx.workspace.id d ∧
      (∀ r ∈ db2, r.slug = d → r.primary = true) ∧
      List.Forall₂ (fun p q =>
        (p.slug = d → q = { p with primary := true }) ∧
        (p.slug ≠ d → p.projectId = ctx.workspace.id → p.primary = true →
          q = { p with primary := false }) ∧
        (p.slug ≠ d → ¬(p.projectId = ctx.workspace.id ∧ p.primary = true) →
          q = p)) env.domains db2 := by
  unfold primaryPOST at h
  cases hm : middleware env primaryRouteOpts with
  | error c m => rw [hm] at h; simp at h
  | anonymous hd => rw [hm] at h; simp at h
  | handled ctx =>
    rw [hm] at h
    simp only [] at h
    cases hd : ctx.domain with
    | none => rw [hd] at h; simp at h
    | some d =>
      rw [hd] at h
      simp only [] at h
      cases hph : primaryHandler env.domains ctx.workspace.id d with
      | none => rw [hph] at h; simp at h
      | some p =>
        obtain ⟨rec0, db0⟩ := p
        rw [hph] at h
        simp only [RouteResult.ok.injEq] at h
        obtain ⟨hrec, -, hdb⟩ := h
        unfold primaryHandler at hph
        cases hf : env.domains.find? (fun r => r.slug == d) with
        | none => rw [hf] at hph; simp at hph
        | some pre =>
          rw [hf] at hph
          simp only [Option.some.injEq, Prod.mk.injEq] at hph
          obtain ⟨hrec0, hdb0⟩ := hph
          have hmem : pre ∈ env.domains := List.mem_of_find?_eq_some hf
          have hps : pre.slug = d := by simpa using List.find?_some hf
          refine ⟨ctx, d, pre, rfl, hd, hmem, hps, ?_, ?_, ?_, ?_, ?_, ?_⟩
          · rw [← hrec, ← hrec0]
          · rw [← hrec, ← hrec0]
            simpa using hps
          · rw [← hrec, ← hrec0]
          · rw [← hdb, ← hdb0]
          · rw [← hdb, ← hdb0]
            exact applyPrimary_slug_primary env.domains ctx.workspace.id d
          · rw [← hdb, ← hdb0]
            exact applyPrimary_forall₂ env.domains ctx.workspace.id d

/-- Witness for C1 at a concrete successful request. -/
theorem primary_post_success_witness :
    primaryPOST envOkay = RouteResult.ok recOkay none dbOkay ∧
    (∃ ctx d pre,
      middleware envOkay primaryRouteOpts = MWResult.handled ctx ∧
      ctx.domain = some d ∧
      pre ∈ envOkay.domains ∧ pre.slug = d ∧
      recOkay = { pre with primary := true } ∧
      recOkay.slug = d ∧ recOkay.primary = true ∧
      dbOkay = applyPrimary envOkay.domains ctx.workspace.id d ∧
      (∀ r ∈ dbOkay, r.slug = d → r.primary = true) ∧
      List.Forall₂ (fun p q =>
        (p.slug = d → q = { p with primary := true }) ∧
        (p.slug ≠ d → p.projectId = ctx.workspace.id → p.primary = true →
          q = { p with primary := false }) ∧
        (p.slug ≠ d → ¬(p.projectId = ctx.workspace.id ∧ p.primary = true) →
          q = p)) envOkay.domains dbOkay) :=
  ⟨by decide, primary_post_success envOkay recOkay none dbOkay (by decide)⟩

/-- Witness for C2 at a concrete handled request. -/
theorem scope_enforcement_witness :
    middleware envOkay primaryRouteOpts = MWResult.handled ctxOkay ∧
    "domains.write" ∈ ctxOkay.scopes :=
  ⟨by decide,
    scope_enforcement.2.1 envOkay primaryRouteOpts ctxOkay rfl (by decide)
      "domains.write" (by decide)⟩

/-- Witness for C3 at a concrete request naming a foreign custom
domain. -/
theorem domain_ownership_witness :
    middleware envEvil primaryRouteOpts =
      MWResult.error .forbidden "Domain does not belong to workspace." :=
  domain_ownership_enforced envEvil primaryRouteOpts [Eff.sessionRead]
    [Eff.workspaceQuery] aEvil wsAcme none ["domains.write"] "evil.com"
    (by decide) (by decide) (by decide) (by decide) (by decide) (by decide)
    (Or.inr ⟨by decide, by decide⟩)

/-- Witness for C4 at a concrete workspace over its clicks limit. -/
theorem clicks_limit_witness :
    middleware envClicks { needNotExceededClicks := true } =
      MWResult.error .forbidden (exceededLimitError "free" 100 "clicks") :=
  clicks_limit_enforced.2.1 envClicks { needNotExceededClicks := true }
    [Eff.sessionRead] [Eff.workspaceQuery] aNoDomain wsClicks none
    ["domains.write"] (by decide) (by decide) (by decide) (by decide)
    (by decide) rfl (by decide)

/-- Witness for the amended C5 at a concrete free-plan workspace over
its links limit. -/
theorem links_limit_witness :
    middleware envLinks { needNotExceededLinks := true } =
      MWResult.error .forbidden (exceededLimitError "free" 25 "links") :=
  links_limit_enforced_free_pro.2 envLinks { needNotExceededLinks := true }
    [Eff.sessionRead] [Eff.workspaceQuery] aNoDomain wsLinks none
    ["domains.write"] (by decide) (by decide) (by decide) (by decide)
    (by decide) (by decide) rfl (by decide) (Or.inl rfl)

/-- Counterexample for C5 as stated: a business-plan workspace whose
links usage strictly exceeds its links limit is not rejected by a route
with needNotExceededLinks; the handler runs. -/
theorem links_limit_business_counterexample :
    middleware envLinksBiz { needNotExceededLinks := true } =
      MWResult.handled ctxLinksBiz ∧
    ctxLinksBiz.workspace.linksUsage > ctxLinksBiz.workspace.linksLimit ∧
    ctxLinksBiz.workspace.plan = "business" := by
  decide

/-- Witness for C6 at a concrete malformed Authorization header. -/
theorem bad_bearer_header_witness :
    middlewareT envBadHeader {} =
      ([], MWResult.error .badRequest "Misconfigured authorization header.") :=
  bad_bearer_header_rejected envBadHeader {} "Token abc" rfl (by decide)
    (by decide)

/-- Counterexample for C6 as stated: a present but empty Authorization
header does not contain the Bearer marker, yet the request is not
rejected with bad_request: the source treats the falsy header as absent
(line 90), the workspace is resolved and the handler is invoked. -/
theorem empty_header_not_rejected :
    envEmptyHeader.authHeader = some "" ∧
    strContains "" "Bearer " = false ∧
    middlewareT envEmptyHeader primaryRouteOpts =
      ([Eff.sessionRead, Eff.workspaceQuery], MWResult.handled ctxOkay) := by
  decide

/-- Witness for the amended C7 at a concrete browser-session request. -/
theorem caller_identity_witness :
    ∃ u, sessionOk envOkay = some u ∧ ctxOkay.session = u ∧ u.id ≠ "" :=
  caller_identity_normalized.1 envOkay primaryRouteOpts ctxOkay (by decide)
    (by decide)

/-- Counterexample for C7 as stated: a restricted token whose user row
has an empty id reaches the handler with an empty session user id. -/
theorem caller_identity_counterexample :
    middleware envTok {} = MWResult.handled ctxTok ∧
    ctxTok.session.id = "" := by
  decide

/-- Witness for C10 at a concrete anonymous request. -/
theorem anonymous_bypass_witness :
    middlewareT envBase { allowAnonymous := true } =
      ([], MWResult.anonymous none) :=
  anonymous_bypass envBase { allowAnonymous := true } rfl rfl (by decide)
